import Mathlib

/-!
Verification of the session-authentication middleware, protected routes and
global error responder of an Express/TypeScript API template.

The embedding models the first-party code:
* `errorHandler` (src/middleware/error.middleware.ts)
* `requireAuth`  (src/middleware/auth.middleware.ts)
* the protected `/api/user/dashboard` route (src/routes/user.routes.ts)

JavaScript strings are modelled as Lean `String`; the character-level
operations of `String.prototype.split` and `String.prototype.startsWith`
are mirrored on `String.data`.  Wall-clock time (`new Date()`) is a `Nat`
of milliseconds passed explicitly.  The Prisma session table is a list of
session records together with an explicit failure switch (modelling a
lookup that throws) and a log of the keys that were queried.
-/

namespace ExpressTemplate

/-- A user record as stored in the database (the fields the middleware
projects: `id`, `email`, `name`). -/
structure User where
  id : String
  email : String
  name : String
deriving DecidableEq, Repr

/-- A session record: opaque token, expiration timestamp (milliseconds),
owning user (the `include: { user: true }` join). -/
structure Session where
  token : String
  expiresAt : Nat
  user : User
deriving DecidableEq, Repr

/-- The request-scoped identity attached by the middleware: exactly the
fields `id`, `email`, `name` (the object literal assigned to `req.user`). -/
structure AuthUser where
  id : String
  email : String
  name : String
deriving DecidableEq, Repr

/-- A JSON value as used by the responses of this codebase: either a string
or a flat object whose fields are strings. -/
inductive JVal where
  | s (v : String)
  | o (fields : List (String × String))
deriving DecidableEq, Repr

/-- A JSON object body: ordered key/value fields. -/
abbrev Body := List (String × JVal)

/-- Does a JSON body carry a field with the given key? -/
def hasField (b : Body) (k : String) : Bool :=
  b.any (fun kv => kv.1 == k)

/-- An HTTP response: status code and JSON body (`res.status(n).json(b)`;
`res.json(b)` alone defaults the status to 200). -/
structure Response where
  status : Nat
  body : Body
deriving DecidableEq, Repr

/-- The session store: the Prisma `session` table, an optional failure
(`some e` models the lookup throwing an error whose text is `e`), and the
log of token keys the middleware queried. -/
structure Db where
  sessions : List Session
  failure : Option String
  queries : List String
deriving DecidableEq, Repr

/-- `prisma.session.findUnique({ where: { token }, include: { user: true } })`:
records the queried key, then either throws (when the store is failing) or
returns the unique session whose token equals the key exactly. -/
def Db.findUniqueSession (db : Db) (token : String) :
    Except String (Option Session) × Db :=
  let db' := { db with queries := db.queries ++ [token] }
  match db.failure with
  | some e => (Except.error e, db')
  | none => (Except.ok (db.sessions.find? (fun s => s.token == token)), db')

/-- JavaScript `s.split(sep)` for a one-character separator, on the
character list: splits into the (possibly empty) segments between
occurrences of `sep`. -/
def splitOnChar (sep : Char) : List Char → List (List Char)
  | [] => [[]]
  | c :: cs =>
    if c = sep then
      [] :: splitOnChar sep cs
    else
      match splitOnChar sep cs with
      | [] => [[c]]
      | s :: rest => (c :: s) :: rest

/-- JavaScript `s.split(sep)` on Lean strings. -/
def jsSplit (s : String) (sep : Char) : List String :=
  (splitOnChar sep s.data).map String.mk

/-- JavaScript `s.startsWith(pre)`. -/
def jsStartsWith (s pre : String) : Bool :=
  pre.data.isPrefixOf s.data

/-- An inbound request as the middleware sees it: the value of the
`Authorization` header, `none` when the header is absent. -/
structure Request where
  authHeader : Option String
deriving DecidableEq, Repr

/-- What the middleware did: either it sent a response and short-circuited
(`respond`), or it attached an identity to the request and called `next()`
(`proceed`). -/
inductive AuthResult where
  | respond (r : Response)
  | proceed (user : AuthUser)
deriving DecidableEq, Repr

/-- The full effect of one middleware run: its control-flow outcome, the
database state afterwards, and the `console.error` lines it printed. -/
structure MwResult where
  result : AuthResult
  db : Db
  logs : List String
deriving DecidableEq, Repr

/-- The `requireAuth` middleware (src/middleware/auth.middleware.ts):
rejects requests without a `Bearer `-prefixed `Authorization` header with
401; extracts the token as `authHeader.split(" ")[1]`; looks it up; rejects
a missing session or one with `expiresAt < now` with 401; otherwise
attaches `{id, email, name}` of the session's user and calls `next()`.
A throwing lookup is caught: logged, answered with status 500. -/
def requireAuth (now : Nat) (req : Request) (db : Db) : MwResult :=
  match req.authHeader with
  | none =>
    { result := .respond ⟨401, [("error", .s "Unauthorized: No Token provided")]⟩
      db := db, logs := [] }
  | some authHeader =>
    if jsStartsWith authHeader "Bearer " then
      -- the prefix check guarantees a space, so index 1 of the split exists
      let token := (jsSplit authHeader ' ').getD 1 ""
      match db.findUniqueSession token with
      | (Except.error e, db') =>
        { result := .respond ⟨500, [("error", .s "Internal server error during auth")]⟩
          db := db', logs := ["Auth middleware error: " ++ e] }
      | (Except.ok sessionOpt, db') =>
        match sessionOpt with
        | none =>
          { result := .respond ⟨401, [("error", .s "Unauthorized: Invalid or expired token")]⟩
            db := db', logs := [] }
        | some session =>
          if session.expiresAt < now then
            { result := .respond ⟨401, [("error", .s "Unauthorized: Invalid or expired token")]⟩
              db := db', logs := [] }
          else
            { result := .proceed ⟨session.user.id, session.user.email, session.user.name⟩
              db := db', logs := [] }
    else
      { result := .respond ⟨401, [("error", .s "Unauthorized: No Token provided")]⟩
        db := db, logs := [] }

/-- The protected dashboard handler (src/routes/user.routes.ts,
`router.get("/dashboard", ...)`): echoes the attached identity. -/
def dashboardHandler (user : AuthUser) : Response :=
  ⟨200, [("message", .s "Welcome to your dashboard!"),
         ("user", .o [("id", user.id), ("email", user.email), ("name", user.name)])]⟩

/-- GET /api/user/dashboard: `requireAuth` runs first; the handler runs only
when the middleware called `next()`. -/
def handleDashboard (now : Nat) (req : Request) (db : Db) :
    Response × Db × List String :=
  match requireAuth now req db with
  | { result := .respond r, db := db', logs := logs } => (r, db', logs)
  | { result := .proceed u, db := db', logs := logs } => (dashboardHandler u, db', logs)

/-- The failure object the global error responder receives. -/
structure ErrObj where
  message : String
deriving DecidableEq, Repr

/-- The global error responder (src/middleware/error.middleware.ts): logs
one diagnostic line and answers 500 with a fixed error field and the
failure's message text. -/
def errorHandler (err : ErrObj) : Response × List String :=
  (⟨500, [("error", .s "Internal server error"), ("message", .s err.message)]⟩,
   ["Error: " ++ err.message])

/-! ### Helper lemmas about the JavaScript string operations -/

theorem splitOnChar_ne_nil (sep : Char) (s : List Char) : splitOnChar sep s ≠ [] := by
  cases s with
  | nil => simp [splitOnChar]
  | cons c cs =>
    simp only [splitOnChar]
    split
    · simp
    · split <;> simp

theorem head_splitOnChar (sep : Char) (s : List Char) :
    (splitOnChar sep s).head? = some (s.takeWhile (fun c => c != sep)) := by
  induction s with
  | nil => simp [splitOnChar]
  | cons c cs ih =>
    simp only [splitOnChar, List.takeWhile]
    by_cases hc : c = sep
    · simp [hc]
    · simp only [if_neg hc]
      have hb : (c != sep) = true := by simpa using hc
      rw [hb]
      cases hsp : splitOnChar sep cs with
      | nil => exact absurd hsp (splitOnChar_ne_nil sep cs)
      | cons s0 rest =>
        rw [hsp] at ih
        simp at ih
        simp [ih]

theorem splitOnChar_append (sep : Char) (p t : List Char) (hp : sep ∉ p) :
    splitOnChar sep (p ++ sep :: t) = p :: splitOnChar sep t := by
  induction p with
  | nil => simp [splitOnChar]
  | cons c cs ih =>
    have hc : c ≠ sep := fun h => hp (h ▸ List.mem_cons_self c cs)
    have hcs : sep ∉ cs := fun h => hp (List.mem_cons_of_mem c h)
    simp only [List.cons_append, splitOnChar, if_neg hc]
    rw [show cs.append (sep :: t) = cs ++ sep :: t from rfl, ih hcs]

/-- A `Bearer `-prefixed header is the scheme followed by its remainder. -/
theorem bearer_data_eq (h : String) (hp : jsStartsWith h "Bearer " = true) :
    h.data = "Bearer ".data ++ h.data.drop 7 := by
  have hpre : "Bearer ".data <+: h.data :=
    (List.isPrefixOf_iff_prefix).mp hp
  obtain ⟨t, ht⟩ := hpre
  have h7 : "Bearer ".data.length = 7 := by decide
  rw [← ht, List.drop_left' h7]

/-- The token `authHeader.split(" ")[1]` extracted from a `Bearer `-prefixed
header is the remainder after the scheme, truncated at its first space. -/
theorem token_of_header (h : String) (hp : jsStartsWith h "Bearer " = true) :
    (jsSplit h ' ').getD 1 ""
      = String.mk ((h.data.drop 7).takeWhile (fun c => c != ' ')) := by
  have hdata := bearer_data_eq h hp
  have hb : "Bearer ".data = "Bearer".data ++ [' '] := by decide
  have hnos : ' ' ∉ "Bearer".data := by decide
  unfold jsSplit
  rw [hdata, hb, List.append_assoc, List.singleton_append,
    splitOnChar_append ' ' "Bearer".data (h.data.drop 7) hnos]
  cases hsp : splitOnChar ' ' (h.data.drop 7) with
  | nil => exact absurd hsp (splitOnChar_ne_nil ' ' _)
  | cons s0 rest =>
    have hh := head_splitOnChar ' ' (h.data.drop 7)
    rw [hsp] at hh
    simp at hh
    simp [hh]

/-- Shared unfolding: a missing or non-`Bearer ` header short-circuits with
the fixed 401 body and leaves the database untouched. -/
theorem requireAuth_no_bearer_scheme (now : Nat) (req : Request) (db : Db)
    (h : req.authHeader = none ∨
         ∃ a, req.authHeader = some a ∧ jsStartsWith a "Bearer " = false) :
    requireAuth now req db
      = { result := .respond ⟨401, [("error", .s "Unauthorized: No Token provided")]⟩,
          db := db, logs := [] } := by
  rcases req with ⟨ah⟩
  rcases h with hnone | ⟨a, ha, hfalse⟩
  · simp only at hnone
    subst hnone
    rfl
  · simp only at ha
    subst ha
    simp [requireAuth, hfalse]

/-- Shared unfolding: with a `Bearer ` header, a healthy store, a found
session and a not-yet-passed expiry, the middleware attaches the user's
projection and proceeds. -/
theorem requireAuth_success (now : Nat) (h : String) (db : Db) (session : Session)
    (hp : jsStartsWith h "Bearer " = true)
    (hfail : db.failure = none)
    (hfind : db.sessions.find? (fun s => s.token == (jsSplit h ' ').getD 1 "")
       = some session)
    (hexp : ¬ session.expiresAt < now) :
    requireAuth now ⟨some h⟩ db
      = { result := .proceed ⟨session.user.id, session.user.email, session.user.name⟩,
          db := { db with queries := db.queries ++ [(jsSplit h ' ').getD 1 ""] },
          logs := [] } := by
  simp only [requireAuth]
  rw [if_pos hp]
  simp only [Db.findUniqueSession, hfail]
  rw [hfind]
  simp [hexp]

/-- Shared unfolding: with a `Bearer ` header and a healthy store, a missing
session or one whose expiry already passed yields the fixed 401 body. -/
theorem requireAuth_invalid (now : Nat) (h : String) (db : Db)
    (hp : jsStartsWith h "Bearer " = true)
    (hfail : db.failure = none)
    (hbad : db.sessions.find? (fun s => s.token == (jsSplit h ' ').getD 1 "") = none ∨
            ∃ session,
              db.sessions.find? (fun s => s.token == (jsSplit h ' ').getD 1 "")
                = some session ∧ session.expiresAt < now) :
    requireAuth now ⟨some h⟩ db
      = { result := .respond ⟨401, [("error", .s "Unauthorized: Invalid or expired token")]⟩,
          db := { db with queries := db.queries ++ [(jsSplit h ' ').getD 1 ""] },
          logs := [] } := by
  rcases hbad with hnone | ⟨session, hfind, hexp⟩
  · simp only [requireAuth]
    rw [if_pos hp]
    simp only [Db.findUniqueSession, hfail]
    rw [hnone]
  · simp only [requireAuth]
    rw [if_pos hp]
    simp only [Db.findUniqueSession, hfail]
    rw [hfind]
    simp [hexp]

/-! ### Claims -/

/-- C1: for every request bearing a token that resolves to an existing,
unexpired session, `requireAuth` attaches an identity with exactly the
fields {id, email, name} copied from the session's owning user, the
downstream handler runs, and GET /api/user/dashboard answers 200 with
{message: "Welcome to your dashboard!", user: {id, email, name}}. -/
theorem dashboard_valid_session_200
    (now : Nat) (t : String) (db : Db) (session : Session)
    (hnospace : ∀ c ∈ t.data, c ≠ ' ')
    (hfail : db.failure = none)
    (hfind : db.sessions.find? (fun s => s.token == t) = some session)
    (hexp : now < session.expiresAt) :
    requireAuth now ⟨some ("Bearer " ++ t)⟩ db
      = { result := .proceed ⟨session.user.id, session.user.email, session.user.name⟩,
          db := { db with queries := db.queries ++ [t] }, logs := [] }
    ∧ handleDashboard now ⟨some ("Bearer " ++ t)⟩ db
      = (⟨200, [("message", .s "Welcome to your dashboard!"),
                ("user", .o [("id", session.user.id), ("email", session.user.email),
                             ("name", session.user.name)])]⟩,
         { db with queries := db.queries ++ [t] }, []) := by
  have hdata : ("Bearer " ++ t).data = "Bearer ".data ++ t.data := String.data_append ..
  have hp : jsStartsWith ("Bearer " ++ t) "Bearer " = true := by
    unfold jsStartsWith
    rw [hdata]
    exact List.isPrefixOf_iff_prefix.mpr ⟨t.data, rfl⟩
  have hdrop : ("Bearer " ++ t).data.drop 7 = t.data := by
    rw [hdata]
    exact List.drop_left' (by decide)
  have htw : t.data.takeWhile (fun c => c != ' ') = t.data :=
    List.takeWhile_eq_self_iff.mpr (fun c hc => by simpa using hnospace c hc)
  have htok : (jsSplit ("Bearer " ++ t) ' ').getD 1 "" = t := by
    rw [token_of_header _ hp, hdrop, htw]
  have hmain := requireAuth_success now ("Bearer " ++ t) db session hp hfail
    (by rw [htok]; exact hfind) (Nat.lt_asymm hexp)
  rw [htok] at hmain
  refine ⟨hmain, ?_⟩
  unfold handleDashboard
  rw [hmain]
  rfl

/-- Witness for C1 at the spec's own scenario. -/
theorem dashboard_valid_session_200_witness :
    (handleDashboard 500 ⟨some ("Bearer " ++ "xyz")⟩
        ⟨[⟨"xyz", 1000, ⟨"u1", "a@b.com", "A"⟩⟩], none, []⟩).1
      = ⟨200, [("message", .s "Welcome to your dashboard!"),
               ("user", .o [("id", "u1"), ("email", "a@b.com"), ("name", "A")])]⟩ := by
  have h := (dashboard_valid_session_200 500 "xyz"
    ⟨[⟨"xyz", 1000, ⟨"u1", "a@b.com", "A"⟩⟩], none, []⟩
    ⟨"xyz", 1000, ⟨"u1", "a@b.com", "A"⟩⟩
    (by decide) rfl (by decide) (by decide)).2
  rw [h]

/-- C3: a request whose Authorization header is absent or does not begin
with "Bearer " is answered 401 {error: "Unauthorized: No Token provided"};
the database is untouched (no session lookup) and the handler never runs. -/
theorem missing_header_401
    (now : Nat) (req : Request) (db : Db)
    (h : req.authHeader = none ∨
         ∃ a, req.authHeader = some a ∧ jsStartsWith a "Bearer " = false) :
    requireAuth now req db
      = { result := .respond ⟨401, [("error", .s "Unauthorized: No Token provided")]⟩,
          db := db, logs := [] }
    ∧ handleDashboard now req db
      = (⟨401, [("error", .s "Unauthorized: No Token provided")]⟩, db, []) := by
  have hm := requireAuth_no_bearer_scheme now req db h
  refine ⟨hm, ?_⟩
  unfold handleDashboard
  rw [hm]

/-- Witness for C3 with the header entirely absent. -/
theorem missing_header_401_witness :
    requireAuth 0 ⟨none⟩ ⟨[], none, []⟩
      = { result := .respond ⟨401, [("error", .s "Unauthorized: No Token provided")]⟩,
          db := ⟨[], none, []⟩, logs := [] } :=
  (missing_header_401 0 ⟨none⟩ ⟨[], none, []⟩ (Or.inl rfl)).1

/-- C9: the scheme check is case-sensitive and exact: "bearer <t>",
"BEAR<t>" variants and the bare word "Bearer" are all answered with the
missing-token 401, whatever sessions the store holds. -/
theorem scheme_case_sensitive (now : Nat) (t : String) (db : Db) :
    requireAuth now ⟨some ("bearer " ++ t)⟩ db
      = { result := .respond ⟨401, [("error", .s "Unauthorized: No Token provided")]⟩,
          db := db, logs := [] }
    ∧ requireAuth now ⟨some ("BEARER " ++ t)⟩ db
      = { result := .respond ⟨401, [("error", .s "Unauthorized: No Token provided")]⟩,
          db := db, logs := [] }
    ∧ requireAuth now ⟨some "Bearer"⟩ db
      = { result := .respond ⟨401, [("error", .s "Unauthorized: No Token provided")]⟩,
          db := db, logs := [] } := by
  refine ⟨?_, ?_, ?_⟩
  · apply requireAuth_no_bearer_scheme
    refine Or.inr ⟨_, rfl, ?_⟩
    unfold jsStartsWith
    rw [String.data_append]
    show ('B' == 'b' && List.isPrefixOf "earer ".data ("earer ".data ++ t.data)) = false
    simp
  · apply requireAuth_no_bearer_scheme
    refine Or.inr ⟨_, rfl, ?_⟩
    unfold jsStartsWith
    rw [String.data_append]
    show ('B' == 'E' && List.isPrefixOf "earer ".data ("EARER ".data ++ t.data)) = false
    simp
  · apply requireAuth_no_bearer_scheme
    exact Or.inr ⟨_, rfl, by decide⟩

/-- C10: when the prefix check fails, the session store is never queried:
the query log after the middleware equals the query log before it. -/
theorem no_lookup_without_prefix
    (now : Nat) (req : Request) (db : Db)
    (h : req.authHeader = none ∨
         ∃ a, req.authHeader = some a ∧ jsStartsWith a "Bearer " = false) :
    (requireAuth now req db).db.queries = db.queries := by
  rw [requireAuth_no_bearer_scheme now req db h]

/-- Witness for C10: a header under a foreign scheme triggers no lookup. -/
theorem no_lookup_without_prefix_witness :
    (requireAuth 0 ⟨some "Basic dXNlcg=="⟩
        ⟨[⟨"dXNlcg==", 1000, ⟨"u1", "a@b.com", "A"⟩⟩], none, []⟩).db.queries = [] :=
  no_lookup_without_prefix 0 ⟨some "Basic dXNlcg=="⟩
    ⟨[⟨"dXNlcg==", 1000, ⟨"u1", "a@b.com", "A"⟩⟩], none, []⟩
    (Or.inr ⟨_, rfl, by decide⟩)

/-- Shared unfolding: with a `Bearer ` header the store is queried exactly
once, for `authHeader.split(" ")[1]`, whatever the outcome. -/
theorem requireAuth_query_log (now : Nat) (h : String) (db : Db)
    (hp : jsStartsWith h "Bearer " = true) :
    (requireAuth now ⟨some h⟩ db).db.queries
      = db.queries ++ [(jsSplit h ' ').getD 1 ""] := by
  simp only [requireAuth]
  rw [if_pos hp]
  simp only [Db.findUniqueSession]
  cases db.failure with
  | some e => rfl
  | none =>
    cases db.sessions.find? (fun s => s.token == (jsSplit h ' ').getD 1 "") with
    | none => rfl
    | some session =>
      by_cases hlt : session.expiresAt < now
      · simp [hlt]
      · simp [hlt]

/-- C2 counterexample: a session whose expiration timestamp equals the
current instant is accepted, not rejected: at now = 1000 a session with
expiresAt = 1000 passes the middleware and the dashboard answers 200. -/
theorem expiry_boundary_counterexample :
    (requireAuth 1000 ⟨some "Bearer xyz"⟩
        ⟨[⟨"xyz", 1000, ⟨"u1", "a@b.com", "A"⟩⟩], none, []⟩).result
      = .proceed ⟨"u1", "a@b.com", "A"⟩
    ∧ (handleDashboard 1000 ⟨some "Bearer xyz"⟩
        ⟨[⟨"xyz", 1000, ⟨"u1", "a@b.com", "A"⟩⟩], none, []⟩).1.status = 200 := by
  decide

/-- C2 (amended): a request bearing a token whose session exists is
rejected 401 {error: "Unauthorized: Invalid or expired token"} when the
session's expiration timestamp is strictly before the current time, the
handler not running; a session expiring exactly at the current time is
accepted. -/
theorem expired_session_401
    (now : Nat) (h : String) (db : Db) (session : Session)
    (hp : jsStartsWith h "Bearer " = true)
    (hfail : db.failure = none)
    (hfind : db.sessions.find? (fun s => s.token == (jsSplit h ' ').getD 1 "")
       = some session) :
    (session.expiresAt < now →
      requireAuth now ⟨some h⟩ db
        = { result := .respond ⟨401, [("error", .s "Unauthorized: Invalid or expired token")]⟩,
            db := { db with queries := db.queries ++ [(jsSplit h ' ').getD 1 ""] },
            logs := [] }
      ∧ (handleDashboard now ⟨some h⟩ db).1.status = 401)
    ∧ (session.expiresAt = now →
      (requireAuth now ⟨some h⟩ db).result
        = .proceed ⟨session.user.id, session.user.email, session.user.name⟩) := by
  constructor
  · intro hlt
    have hm := requireAuth_invalid now h db hp hfail (Or.inr ⟨session, hfind, hlt⟩)
    refine ⟨hm, ?_⟩
    unfold handleDashboard
    rw [hm]
  · intro heq
    have hm := requireAuth_success now h db session hp hfail hfind (by omega)
    rw [hm]

/-- Witness for the amended C2 at the spec's expired-session scenario. -/
theorem expired_session_401_witness :
    requireAuth 2000 ⟨some "Bearer xyz"⟩
        ⟨[⟨"xyz", 1000, ⟨"u1", "a@b.com", "A"⟩⟩], none, []⟩
      = { result := .respond ⟨401, [("error", .s "Unauthorized: Invalid or expired token")]⟩,
          db := ⟨[⟨"xyz", 1000, ⟨"u1", "a@b.com", "A"⟩⟩], none, ["xyz"]⟩,
          logs := [] } := by
  have hm := ((expired_session_401 2000 "Bearer xyz"
    ⟨[⟨"xyz", 1000, ⟨"u1", "a@b.com", "A"⟩⟩], none, []⟩
    ⟨"xyz", 1000, ⟨"u1", "a@b.com", "A"⟩⟩
    (by decide) rfl (by decide)).1 (by decide)).1
  rw [hm]
  decide

/-- C4: the failure responses for a token with no matching session and for
a token whose session is expired are identical: same 401 status, same
{error: "Unauthorized: Invalid or expired token"} body. -/
theorem notfound_expired_indistinguishable
    (now₁ now₂ : Nat) (h₁ h₂ : String) (db₁ db₂ : Db) (session : Session)
    (hp₁ : jsStartsWith h₁ "Bearer " = true)
    (hp₂ : jsStartsWith h₂ "Bearer " = true)
    (hf₁ : db₁.failure = none) (hf₂ : db₂.failure = none)
    (hmiss : db₁.sessions.find? (fun s => s.token == (jsSplit h₁ ' ').getD 1 "") = none)
    (hhit : db₂.sessions.find? (fun s => s.token == (jsSplit h₂ ' ').getD 1 "")
       = some session)
    (hexp : session.expiresAt < now₂) :
    (requireAuth now₁ ⟨some h₁⟩ db₁).result = (requireAuth now₂ ⟨some h₂⟩ db₂).result
    ∧ (requireAuth now₁ ⟨some h₁⟩ db₁).result
        = .respond ⟨401, [("error", .s "Unauthorized: Invalid or expired token")]⟩ := by
  have m₁ := requireAuth_invalid now₁ h₁ db₁ hp₁ hf₁ (Or.inl hmiss)
  have m₂ := requireAuth_invalid now₂ h₂ db₂ hp₂ hf₂ (Or.inr ⟨session, hhit, hexp⟩)
  rw [m₁, m₂]
  exact ⟨rfl, rfl⟩

/-- Witness for C4: unknown token vs. expired session, same failure. -/
theorem notfound_expired_indistinguishable_witness :
    (requireAuth 0 ⟨some "Bearer abc"⟩ ⟨[], none, []⟩).result
      = (requireAuth 2000 ⟨some "Bearer xyz"⟩
          ⟨[⟨"xyz", 1000, ⟨"u1", "a@b.com", "A"⟩⟩], none, []⟩).result :=
  (notfound_expired_indistinguishable 0 2000 "Bearer abc" "Bearer xyz"
    ⟨[], none, []⟩ ⟨[⟨"xyz", 1000, ⟨"u1", "a@b.com", "A"⟩⟩], none, []⟩
    ⟨"xyz", 1000, ⟨"u1", "a@b.com", "A"⟩⟩
    (by decide) (by decide) rfl rfl (by decide) (by decide) (by decide)).1

/-- C5 counterexample: for header "Bearer a b" the substring after the
scheme prefix is "a b", but the store is queried for "a": a session stored
under the full substring is not found and the request is rejected. -/
theorem token_space_counterexample :
    (requireAuth 0 ⟨some "Bearer a b"⟩
        ⟨[⟨"a b", 1000, ⟨"u1", "a@b.com", "A"⟩⟩], none, []⟩).db.queries = ["a"]
    ∧ String.mk ("Bearer a b".data.drop 7) = "a b"
    ∧ ("a" : String) ≠ "a b"
    ∧ (requireAuth 0 ⟨some "Bearer a b"⟩
        ⟨[⟨"a b", 1000, ⟨"u1", "a@b.com", "A"⟩⟩], none, []⟩).result
      = .respond ⟨401, [("error", .s "Unauthorized: Invalid or expired token")]⟩ := by
  decide

/-- C5 (amended): for every request whose Authorization header begins with
"Bearer ", the value looked up in the session store is the substring after
the scheme prefix truncated at its first space character (the effect of
split(" ")[1]); it equals the entire substring exactly when that substring
contains no space. -/
theorem lookup_key_is_truncated_remainder
    (now : Nat) (h : String) (db : Db)
    (hp : jsStartsWith h "Bearer " = true) :
    (requireAuth now ⟨some h⟩ db).db.queries
      = db.queries ++ [String.mk ((h.data.drop 7).takeWhile (fun c => c != ' '))]
    ∧ ((∀ c ∈ h.data.drop 7, c ≠ ' ') →
        String.mk ((h.data.drop 7).takeWhile (fun c => c != ' '))
          = String.mk (h.data.drop 7)) := by
  constructor
  · rw [requireAuth_query_log now h db hp, token_of_header h hp]
  · intro hns
    exact congrArg String.mk
      (List.takeWhile_eq_self_iff.mpr (fun c hc => by simpa using hns c hc))

/-- Witness for the amended C5. -/
theorem lookup_key_is_truncated_remainder_witness :
    (requireAuth 0 ⟨some "Bearer xyz"⟩ ⟨[], none, []⟩).db.queries = ["xyz"] := by
  have hq := (lookup_key_is_truncated_remainder 0 "Bearer xyz"
    ⟨[], none, []⟩ (by decide)).1
  rw [hq]
  decide

/-- C6 counterexample: when the session lookup itself fails, the middleware
answers 500 with a body that has an error field but no message field; the
cause appears only in the server-side log. -/
theorem auth_500_no_message_field :
    (requireAuth 0 ⟨some "Bearer abc"⟩ ⟨[], some "boom", []⟩).result
      = .respond ⟨500, [("error", .s "Internal server error during auth")]⟩
    ∧ hasField [("error", JVal.s "Internal server error during auth")] "message" = false
    ∧ (requireAuth 0 ⟨some "Bearer abc"⟩ ⟨[], some "boom", []⟩).logs
      = ["Auth middleware error: boom"] := by
  decide

/-- C6 (amended): an internal failure surfaced through the global error
responder carries both an error and a message field; an internal failure of
the session lookup inside the auth middleware is answered 500 with a fixed
body carrying only an error field, the cause appearing only in the
server-side log. -/
theorem internal_500_shape
    (now : Nat) (h : String) (db : Db) (e msg : String)
    (hp : jsStartsWith h "Bearer " = true)
    (hf : db.failure = some e) :
    requireAuth now ⟨some h⟩ db
      = { result := .respond ⟨500, [("error", .s "Internal server error during auth")]⟩,
          db := { db with queries := db.queries ++ [(jsSplit h ' ').getD 1 ""] },
          logs := ["Auth middleware error: " ++ e] }
    ∧ hasField [("error", JVal.s "Internal server error during auth")] "message" = false
    ∧ (errorHandler ⟨msg⟩).1
      = ⟨500, [("error", .s "Internal server error"), ("message", .s msg)]⟩
    ∧ hasField (errorHandler ⟨msg⟩).1.body "error" = true
    ∧ hasField (errorHandler ⟨msg⟩).1.body "message" = true := by
  refine ⟨?_, by decide, rfl, rfl, rfl⟩
  simp only [requireAuth]
  rw [if_pos hp]
  simp only [Db.findUniqueSession, hf]

/-- Witness for the amended C6 at a concrete failing lookup. -/
theorem internal_500_shape_witness :
    requireAuth 0 ⟨some "Bearer tok"⟩ ⟨[], some "db down", []⟩
      = { result := .respond ⟨500, [("error", .s "Internal server error during auth")]⟩,
          db := ⟨[], some "db down", ["tok"]⟩,
          logs := ["Auth middleware error: db down"] } := by
  have hm := (internal_500_shape 0 "Bearer tok" ⟨[], some "db down", []⟩
    "db down" "whatever" (by decide) rfl).1
  rw [hm]
  decide

/-- C7: the global error responder logs one diagnostic line and answers 500
with {error: "Internal server error", message: <failure's message text>},
uniformly in the failure it receives. -/
theorem errorHandler_contract (err : ErrObj) :
    errorHandler err
      = (⟨500, [("error", .s "Internal server error"), ("message", .s err.message)]⟩,
         ["Error: " ++ err.message])
    ∧ (errorHandler err).2.length = 1 :=
  ⟨rfl, rfl⟩

/-- C8: the middleware never mutates session state: for every request and
every outcome, the session table and the store's health after the run equal
those before it; only the query log and the response differ. -/
theorem requireAuth_preserves_sessions (now : Nat) (req : Request) (db : Db) :
    (requireAuth now req db).db.sessions = db.sessions
    ∧ (requireAuth now req db).db.failure = db.failure := by
  rcases req with ⟨_ | a⟩
  · exact ⟨rfl, rfl⟩
  · simp only [requireAuth]
    by_cases hp : jsStartsWith a "Bearer " = true
    · rw [if_pos hp]
      simp only [Db.findUniqueSession]
      cases db.failure with
      | some e => exact ⟨rfl, rfl⟩
      | none =>
        cases db.sessions.find? (fun s => s.token == (jsSplit a ' ').getD 1 "") with
        | none => exact ⟨rfl, rfl⟩
        | some session =>
          by_cases hlt : session.expiresAt < now
          · simp [hlt]
          · simp [hlt]
    · rw [if_neg hp]
      exact ⟨rfl, rfl⟩

end ExpressTemplate
